import Mathlib

/-!
Shallow embedding of the TwinEdge Safety Lab backend (src/main.py, src/schemas.py).

Conventions used throughout:
* Python `float` arithmetic in the risk scorer is modelled as exact rational
  arithmetic over `ℚ`; Python `int` is `ℤ`; `datetime` values are modelled as
  integers (an epoch offset), since only their relative order matters here.
* pydantic validation declared in `schemas.py` is modelled as explicit
  parse/validate functions returning `Except`.
* Python's `round(x, 1)` (round half to even) is modelled by `roundHalfEven`
  on `ℚ`, scaled by 10.
-/

namespace TwinEdge

/-- `schemas.py` `Location`: latitude/longitude pair. -/
structure Location where
  lat : ℚ
  lng : ℚ
deriving DecidableEq

/-- `schemas.py` `InsightRequest`: `temperature_c: float; gas_ppm: int; aqi: int`,
with no field constraints declared. -/
structure InsightRequest where
  temperature_c : ℚ
  gas_ppm : ℤ
  aqi : ℤ
deriving DecidableEq

/-- `schemas.py` `InsightResponse`: `score: float` (declared `ge=0, le=100`),
`level: str`, `tips: list[str]`. -/
structure InsightResponse where
  score : ℚ
  level : String
  tips : List String
deriving DecidableEq

/-- Errors surfaced by the embedded endpoints: pydantic `ValidationError` and
FastAPI `HTTPException(status, detail)`. -/
inductive ApiError where
  | validationError (msg : String)
  | httpException (status : ℕ) (msg : String)
deriving DecidableEq

/-- The human-readable cause string carried by an error. -/
def ApiError.detail : ApiError → String
  | ApiError.validationError m => m
  | ApiError.httpException _ m => m

/-- Round half to even to an integer: the rounding mode of Python's `round`. -/
def roundHalfEven (q : ℚ) : ℤ :=
  if q - ⌊q⌋ < 1/2 then ⌊q⌋
  else if q - ⌊q⌋ = 1/2 then (if ⌊q⌋ % 2 = 0 then ⌊q⌋ else ⌊q⌋ + 1)
  else ⌊q⌋ + 1

/-- Python's `round(x, 1)`: round to one decimal place. -/
def round1 (q : ℚ) : ℚ := (roundHalfEven (q * 10) : ℚ) / 10

/-- `main.py` lines 116–119: the raw heuristic score
`score = 0.0; score += max(0.0, t - 25) * 1.2; score += g / 12; score += a / 3`. -/
def rawScore (t : ℚ) (g a : ℤ) : ℚ :=
  0.0 + max 0.0 (t - 25) * 1.2 + (g : ℚ) / 12 + (a : ℚ) / 3

/-- `main.py` line 122: `score = max(0.0, min(100.0, score))`. -/
def clampScore (s : ℚ) : ℚ := max 0.0 (min 100.0 s)

/-- `main.py` lines 124–143: the level / tips priority chain, evaluated on the
(clamped) score together with the raw `gas_ppm` / `aqi` inputs. -/
def levelTips (score : ℚ) (g a : ℤ) : String × List String :=
  if 70 ≤ score ∨ 800 < g ∨ 150 < a then
    ("High risk",
      ["Evacuate non-essential personnel",
       "Engage ventilation and gas suppression systems",
       "Activate incident command protocol"])
  else if 45 ≤ score ∨ 600 < g ∨ 100 < a then
    ("Elevated",
      ["Increase monitoring frequency",
       "Prepare PPE and standby team",
       "Verify sensor calibration"])
  else
    ("Normal",
      ["Continue routine monitoring",
       "Maintain clear egress routes"])

/-- `main.py` `assess_risk` (lines 107–145), the handler body. -/
def assess_risk (p : InsightRequest) : InsightResponse :=
  let score := rawScore p.temperature_c p.gas_ppm p.aqi
  let score := clampScore score
  let lt := levelTips score p.gas_ppm p.aqi
  { score := round1 score, level := lt.1, tips := lt.2 }

/-- pydantic validation of `InsightRequest` (schemas.py lines 25–28): the model
declares no constraints, so any numeric payload is accepted. -/
def InsightRequest.parse (t : ℚ) (g a : ℤ) : Except ApiError InsightRequest :=
  Except.ok ⟨t, g, a⟩

/-- pydantic validation of `InsightResponse` (schemas.py lines 30–33): `score`
is declared `ge=0, le=100`, so building the response model checks the bounds. -/
def InsightResponse.validate (r : InsightResponse) : Except ApiError InsightResponse :=
  if 0 ≤ r.score then
    if r.score ≤ 100 then Except.ok r
    else Except.error (ApiError.validationError "score: input should be less than or equal to 100")
  else Except.error (ApiError.validationError "score: input should be greater than or equal to 0")

/-- The `/api/insights/assess` endpoint as seen by a caller: request-body
validation, `assess_risk`, then response-model validation. -/
def assessEndpoint (t : ℚ) (g a : ℤ) : Except ApiError InsightResponse :=
  match InsightRequest.parse t g a with
  | Except.error e => Except.error e
  | Except.ok p => InsightResponse.validate (assess_risk p)

/-- Timestamp-valued field of a stored document: either a proper datetime
(modelled as `ℤ`) or a raw string, as found in loosely-typed documents. -/
inductive TsVal where
  | dt (v : ℤ)
  | str (s : String)
deriving DecidableEq

/-- A document of the `"sensorevent"` collection as returned by the store: the
`SensorEvent` fields plus the store-only `_id` (called `oid` here) and the
optional store-assigned `created_at`. -/
structure Doc where
  oid : Option String
  created_at : Option ℤ
  timestamp : Option TsVal
  temperature_c : ℚ
  gas_ppm : ℤ
  aqi : ℤ
  location : Option Location
  notes : Option String
  source : Option String
deriving DecidableEq

/-- `schemas.py` `SensorEvent` (lines 15–23) after validation. -/
structure SensorEvent where
  timestamp : ℤ
  temperature_c : ℚ
  gas_ppm : ℤ
  aqi : ℤ
  location : Option Location
  notes : Option String
  source : String
deriving DecidableEq

/-- Raw ingest payload for `SensorEvent` before pydantic validation:
`gas_ppm`/`aqi` unconstrained, `source` possibly absent. -/
structure SensorEventInput where
  timestamp : ℤ
  temperature_c : ℚ
  gas_ppm : ℤ
  aqi : ℤ
  location : Option Location
  notes : Option String
  source : Option String
deriving DecidableEq

/-- pydantic validation of `SensorEvent` (schemas.py lines 15–23): `gas_ppm`
and `aqi` are declared `Field(..., ge=0)`; `source` defaults to `"raspi"`. -/
def SensorEvent.parse (i : SensorEventInput) : Except ApiError SensorEvent :=
  if 0 ≤ i.gas_ppm then
    if 0 ≤ i.aqi then
      Except.ok ⟨i.timestamp, i.temperature_c, i.gas_ppm, i.aqi, i.location,
        i.notes, i.source.getD "raspi"⟩
    else Except.error (ApiError.validationError "aqi: input should be greater than or equal to 0")
  else Except.error (ApiError.validationError "gas_ppm: input should be greater than or equal to 0")

/-- Modelled from the spec: `create_document` lives in `database.py`, which is
not under src/; per §4.1 and §6 of the spec it inserts the document into the
collection and returns the store-assigned identifier, and the store may attach
a creation timestamp. The store is modelled as a list of documents and
insertion appends. -/
def create_document (store : List Doc) (ev : SensorEvent) (newId : String)
    (createdAt : Option ℤ) : List Doc × String :=
  (store ++ [⟨some newId, createdAt, some (TsVal.dt ev.timestamp), ev.temperature_c,
    ev.gas_ppm, ev.aqi, ev.location, ev.notes, some ev.source⟩], newId)

/-- `main.py` `ingest_sensor_event` (lines 64–71), including the pydantic
validation FastAPI performs on the request body before the handler runs: a
`ValidationError` rejects the request before `create_document` is reached. -/
def ingest_sensor_event (store : List Doc) (i : SensorEventInput) (newId : String)
    (createdAt : Option ℤ) : Except ApiError (List Doc × String) :=
  match SensorEvent.parse i with
  | Except.error e => Except.error e
  | Except.ok ev => Except.ok (create_document store ev newId createdAt)

/-- Modelled from the spec: `get_documents` lives in `database.py`, not under
src/; per §6 of the spec it returns up to `limit` documents of the collection.
It is modelled as returning the first `limit` stored documents. -/
def get_documents (store : List Doc) (limit : ℕ) : List Doc := store.take limit

/-- Python truthiness of a timestamp-valued field, as used by the `or` chain of
`main.py` line 85: a datetime is always truthy, a string is truthy iff
nonempty. -/
def TsVal.truthy : TsVal → Bool
  | TsVal.dt _ => true
  | TsVal.str s => decide (s ≠ "")

/-- `main.py` lines 84–85 `key_fn`:
`d.get("created_at") or d.get("timestamp") or datetime.now(timezone.utc)`.
An absent key yields the falsy `None`; a present value is used only if truthy,
so a present but empty-string `timestamp` falls through to the current time
(`created_at`, when present, is a datetime and always truthy). -/
def key_fn (now : ℤ) (d : Doc) : TsVal :=
  match d.created_at with
  | some c => TsVal.dt c
  | none =>
    match d.timestamp with
    | some v => if v.truthy then v else TsVal.dt now
    | none => TsVal.dt now

/-- Comparison of sort keys. Python orders two datetimes or two strings
naturally and raises `TypeError` on a mixed comparison; the mixed cases are
given arbitrary constant values here, and the sortedness theorem below only
quantifies over fetched documents whose keys are homogeneous datetimes, where
no mixed comparison can arise. -/
def tsLe : TsVal → TsVal → Bool
  | TsVal.dt a, TsVal.dt b => decide (a ≤ b)
  | TsVal.str a, TsVal.str b => decide (a ≤ b)
  | TsVal.dt _, TsVal.str _ => true
  | TsVal.str _, TsVal.dt _ => false

/-- Is this key a datetime value? -/
def TsVal.isDt : TsVal → Bool
  | TsVal.dt _ => true
  | TsVal.str _ => false

/-- `main.py` line 86: `sorted(docs, key=key_fn, reverse=True)`, a stable sort
descending by key. -/
def sortDocs (now : ℤ) (docs : List Doc) : List Doc :=
  docs.mergeSort (fun x y => tsLe (key_fn now y) (key_fn now x))

/-- `main.py` lines 90–96: pop the store-only `_id`, then best-effort re-parse
a string `timestamp` with `datetime.fromisoformat`, keeping the original value
when that parse fails. `parseIso` abstracts `datetime.fromisoformat`, stdlib
code that is not part of src/. -/
def normalizeDoc (parseIso : String → Option ℤ) (d : Doc) : Doc :=
  match d.timestamp with
  | some (TsVal.str s) =>
    match parseIso s with
    | some v => { d with oid := none, timestamp := some (TsVal.dt v) }
    | none => { d with oid := none }
  | _ => { d with oid := none }

/-- Field validation shared by `SensorEvent` construction from a document:
`gas_ppm`/`aqi` must be nonnegative, `source` defaults to `"raspi"`. -/
def SensorEvent.ofParts (d : Doc) (v : ℤ) : Except ApiError SensorEvent :=
  if 0 ≤ d.gas_ppm then
    if 0 ≤ d.aqi then
      Except.ok ⟨v, d.temperature_c, d.gas_ppm, d.aqi, d.location, d.notes,
        d.source.getD "raspi"⟩
    else Except.error (ApiError.validationError "aqi: input should be greater than or equal to 0")
  else Except.error (ApiError.validationError "gas_ppm: input should be greater than or equal to 0")

/-- The pydantic construction `SensorEvent(**d)` (main.py line 97): `timestamp`
must be present and coercible to a datetime. `parsePyd` abstracts pydantic's
(lenient) datetime coercion of strings, external library code; a string it
cannot parse raises a `ValidationError`. -/
def SensorEvent.ofDoc (parsePyd : String → Option ℤ) (d : Doc) : Except ApiError SensorEvent :=
  match d.timestamp with
  | none => Except.error (ApiError.validationError "timestamp: field required")
  | some (TsVal.dt v) => SensorEvent.ofParts d v
  | some (TsVal.str s) =>
    match parsePyd s with
    | some v => SensorEvent.ofParts d v
    | none => Except.error (ApiError.validationError "timestamp: invalid datetime")

/-- The items loop of `get_recent_readings` (main.py lines 88–97): records are
converted in order and the first pydantic failure aborts the whole loop (the
exception propagates to the handler's `except`). -/
def buildItems (parsePyd : String → Option ℤ) : List Doc → Except ApiError (List SensorEvent)
  | [] => Except.ok []
  | d :: ds =>
    match SensorEvent.ofDoc parsePyd d with
    | Except.error e => Except.error e
    | Except.ok ev =>
      match buildItems parsePyd ds with
      | Except.error e => Except.error e
      | Except.ok evs => Except.ok (ev :: evs)

/-- The fetched, sorted and per-record normalized documents of
`get_recent_readings` (main.py lines 82–96). -/
def processedDocs (parseIso : String → Option ℤ) (now : ℤ) (store : List Doc)
    (limit : ℕ) : List Doc :=
  (sortDocs now (get_documents store limit)).map (normalizeDoc parseIso)

/-- `main.py` `get_recent_readings` (lines 78–100): any exception raised inside
the handler's `try` is surfaced as `HTTPException(500, detail)`. -/
def get_recent_readings (parseIso parsePyd : String → Option ℤ) (now : ℤ)
    (store : List Doc) (limit : ℕ) : Except ApiError (List SensorEvent) :=
  match buildItems parsePyd (processedDocs parseIso now store limit) with
  | Except.ok items => Except.ok items
  | Except.error e => Except.error (ApiError.httpException 500 e.detail)

/-- `get_recent_readings` called without a `limit` argument: the signature
`limit: int = 20` supplies the default. -/
def get_recent_readings_default (parseIso parsePyd : String → Option ℤ) (now : ℤ)
    (store : List Doc) : Except ApiError (List SensorEvent) :=
  get_recent_readings parseIso parsePyd now store 20

/-- A well-formed stored document (with store-assigned fields). -/
def docGood : Doc :=
  ⟨some "a1", some 2, some (TsVal.dt 1), 20, 0, 0, none, none, some "raspi"⟩

/-- A stored document whose `timestamp` is a string no datetime parser
accepts. -/
def docBad : Doc :=
  ⟨some "b2", some 1, some (TsVal.str "not-a-date"), 21, 0, 0, none, none, some "raspi"⟩

/-- A stored document with no store-assigned creation timestamp and a present
but empty-string domain `timestamp` — a falsy value in Python's `or` chain. -/
def docFalsy : Doc :=
  ⟨none, none, some (TsVal.str ""), 20, 0, 0, none, none, some "raspi"⟩

lemma floor_le_roundHalfEven (q : ℚ) : ⌊q⌋ ≤ roundHalfEven q := by
  unfold roundHalfEven
  split_ifs <;> omega

lemma roundHalfEven_nonneg {q : ℚ} (h : 0 ≤ q) : 0 ≤ roundHalfEven q :=
  le_trans (Int.floor_nonneg.mpr h) (floor_le_roundHalfEven q)

lemma roundHalfEven_le_of_le {q : ℚ} {B : ℤ} (h : q ≤ B) : roundHalfEven q ≤ B := by
  have hf : ⌊q⌋ ≤ B := by
    have h2 := Int.floor_mono h
    rwa [Int.floor_intCast] at h2
  have hfq : (⌊q⌋ : ℚ) ≤ q := Int.floor_le q
  unfold roundHalfEven
  split_ifs with h1 h2 h3
  · exact hf
  · exact hf
  · have hlt : (⌊q⌋ : ℚ) < (B : ℚ) := by linarith
    have : ⌊q⌋ < B := by exact_mod_cast hlt
    omega
  · have h4 : 1/2 < q - ⌊q⌋ := lt_of_le_of_ne (not_lt.mp h1) (Ne.symm h2)
    have hlt : (⌊q⌋ : ℚ) < (B : ℚ) := by linarith
    have : ⌊q⌋ < B := by exact_mod_cast hlt
    omega

lemma round1_nonneg {q : ℚ} (h : 0 ≤ q) : 0 ≤ round1 q := by
  unfold round1
  have h1 : 0 ≤ roundHalfEven (q * 10) := roundHalfEven_nonneg (by linarith)
  have h2 : (0 : ℚ) ≤ (roundHalfEven (q * 10) : ℚ) := by exact_mod_cast h1
  linarith

lemma round1_le_100 {q : ℚ} (h : q ≤ 100) : round1 q ≤ 100 := by
  unfold round1
  have h1 : roundHalfEven (q * 10) ≤ (1000 : ℤ) := by
    apply roundHalfEven_le_of_le
    push_cast
    linarith
  have h2 : (roundHalfEven (q * 10) : ℚ) ≤ (1000 : ℚ) := by exact_mod_cast h1
  linarith

lemma round1_decimal (q : ℚ) : ∃ n : ℤ, round1 q = (n : ℚ) / 10 :=
  ⟨roundHalfEven (q * 10), rfl⟩

lemma clampScore_nonneg (s : ℚ) : 0 ≤ clampScore s := by
  unfold clampScore
  simp only [le_max_iff]
  left
  norm_num

lemma clampScore_le_100 (s : ℚ) : clampScore s ≤ 100 := by
  unfold clampScore
  simp only [max_le_iff, min_le_iff]
  norm_num

lemma le_clampScore_iff {c : ℚ} (s : ℚ) (h0 : 0 < c) (h100 : c ≤ 100) :
    c ≤ clampScore s ↔ c ≤ s := by
  unfold clampScore
  rw [le_max_iff, le_min_iff]
  constructor
  · rintro (h | ⟨h1, h2⟩)
    · norm_num at h
      linarith
    · exact h2
  · intro h
    right
    norm_num
    exact ⟨h100, h⟩

lemma assess_score_eq (p : InsightRequest) :
    (assess_risk p).score = round1 (clampScore (rawScore p.temperature_c p.gas_ppm p.aqi)) :=
  rfl

lemma assess_level_eq (p : InsightRequest) :
    (assess_risk p).level =
      (levelTips (clampScore (rawScore p.temperature_c p.gas_ppm p.aqi)) p.gas_ppm p.aqi).1 :=
  rfl

lemma assess_tips_eq (p : InsightRequest) :
    (assess_risk p).tips =
      (levelTips (clampScore (rawScore p.temperature_c p.gas_ppm p.aqi)) p.gas_ppm p.aqi).2 :=
  rfl

lemma assess_score_bounds (p : InsightRequest) :
    0 ≤ (assess_risk p).score ∧ (assess_risk p).score ≤ 100 := by
  rw [assess_score_eq]
  exact ⟨round1_nonneg (clampScore_nonneg _), round1_le_100 (clampScore_le_100 _)⟩

lemma assessEndpoint_ok (t : ℚ) (g a : ℤ) :
    assessEndpoint t g a = Except.ok (assess_risk ⟨t, g, a⟩) := by
  have hb := assess_score_bounds ⟨t, g, a⟩
  show InsightResponse.validate (assess_risk ⟨t, g, a⟩) = Except.ok (assess_risk ⟨t, g, a⟩)
  unfold InsightResponse.validate
  rw [if_pos hb.1, if_pos hb.2]

lemma levelTips_clamp_eq (s : ℚ) (g a : ℤ) :
    levelTips (clampScore s) g a = levelTips s g a := by
  have h70 : 70 ≤ clampScore s ↔ 70 ≤ s := le_clampScore_iff s (by norm_num) (by norm_num)
  have h45 : 45 ≤ clampScore s ↔ 45 ≤ s := le_clampScore_iff s (by norm_num) (by norm_num)
  unfold levelTips
  simp only [h70, h45]

lemma tsLe_trans (u v w : TsVal) (h1 : tsLe u v = true) (h2 : tsLe v w = true) :
    tsLe u w = true := by
  cases u <;> cases v <;> cases w <;> simp_all [tsLe] <;>
    first
      | omega
      | exact le_trans h1 h2

lemma tsLe_total (u v : TsVal) : (tsLe u v || tsLe v u) = true := by
  cases u <;> cases v <;> simp_all [tsLe] <;>
    first
      | omega
      | exact le_total _ _

lemma sortDocs_perm (now : ℤ) (docs : List Doc) : List.Perm (sortDocs now docs) docs :=
  List.mergeSort_perm docs _

lemma sortDocs_pairwise (now : ℤ) (docs : List Doc) :
    List.Pairwise (fun x y => tsLe (key_fn now y) (key_fn now x) = true) (sortDocs now docs) := by
  have htrans : ∀ a b c : Doc,
      tsLe (key_fn now b) (key_fn now a) = true →
      tsLe (key_fn now c) (key_fn now b) = true →
      tsLe (key_fn now c) (key_fn now a) = true :=
    fun a b c hab hbc => tsLe_trans _ _ _ hbc hab
  have htotal : ∀ a b : Doc,
      (tsLe (key_fn now b) (key_fn now a) || tsLe (key_fn now a) (key_fn now b)) = true :=
    fun a b => tsLe_total _ _
  simpa [sortDocs] using List.sorted_mergeSort htrans htotal docs

lemma key_fn_created (now : ℤ) (d : Doc) (c : ℤ) (h : d.created_at = some c) :
    key_fn now d = TsVal.dt c := by
  simp [key_fn, h]

lemma key_fn_timestamp (now : ℤ) (d : Doc) (v : TsVal) (h1 : d.created_at = none)
    (h2 : d.timestamp = some v) (h3 : v.truthy = true) : key_fn now d = v := by
  simp [key_fn, h1, h2, h3]

lemma key_fn_falsy (now : ℤ) (d : Doc) (v : TsVal) (h1 : d.created_at = none)
    (h2 : d.timestamp = some v) (h3 : v.truthy = false) : key_fn now d = TsVal.dt now := by
  simp [key_fn, h1, h2, h3]

lemma key_fn_now (now : ℤ) (d : Doc) (h1 : d.created_at = none)
    (h2 : d.timestamp = none) : key_fn now d = TsVal.dt now := by
  simp [key_fn, h1, h2]

lemma normalizeDoc_oid (p : String → Option ℤ) (d : Doc) : (normalizeDoc p d).oid = none := by
  rcases htv : d.timestamp with _ | tv
  · simp [normalizeDoc, htv]
  · cases tv with
    | dt v => simp [normalizeDoc, htv]
    | str s => cases hp : p s <;> simp [normalizeDoc, htv, hp]

lemma normalizeDoc_unparsed (p : String → Option ℤ) (d : Doc) (s : String)
    (h1 : d.timestamp = some (TsVal.str s)) (h2 : p s = none) :
    (normalizeDoc p d).timestamp = some (TsVal.str s) := by
  simp [normalizeDoc, h1, h2]

lemma except_isOk_iff {ε α : Type} (e : Except ε α) :
    e.isOk = true ↔ ∃ x, e = Except.ok x := by
  cases e <;> simp [Except.isOk, Except.toBool]

lemma buildItems_ok (pPyd : String → Option ℤ) (l : List Doc)
    (h : ∀ d ∈ l, (SensorEvent.ofDoc pPyd d).isOk = true) :
    ∃ items, buildItems pPyd l = Except.ok items ∧ items.length = l.length := by
  induction l with
  | nil => exact ⟨[], rfl, rfl⟩
  | cons d ds ih =>
    obtain ⟨ev, hev⟩ := (except_isOk_iff _).mp (h d (List.mem_cons_self d ds))
    obtain ⟨items, hi, hl⟩ := ih fun x hx => h x (List.mem_cons_of_mem d hx)
    refine ⟨ev :: items, ?_, by simp [hl]⟩
    simp [buildItems, hev, hi]

lemma mergeSort_pair {α : Type} (le : α → α → Bool) (a b : α) :
    List.mergeSort [a, b] le = if le a b then [a, b] else [b, a] := by
  rw [List.mergeSort]
  by_cases h : le a b = true <;> simp [h, List.merge]

/-- C1: for every input with `gas_ppm ≥ 0` and `aqi ≥ 0`, `assess` succeeds and
the returned score equals `max(0, temperature_c - 25) * 1.2 + gas_ppm / 12 +
aqi / 3`, clamped to [0, 100] and then rounded to one decimal place; in
particular the score lies within [0, 100]. -/
theorem claim_c1 (t : ℚ) (g a : ℤ) (_hg : 0 ≤ g) (_ha : 0 ≤ a) :
    ∃ r, assessEndpoint t g a = Except.ok r ∧
      r.score = round1 (clampScore (max 0 (t - 25) * 1.2 + (g : ℚ) / 12 + (a : ℚ) / 3)) ∧
      (∃ n : ℤ, r.score = (n : ℚ) / 10) ∧
      0 ≤ r.score ∧ r.score ≤ 100 := by
  have hrs : rawScore t g a = max 0 (t - 25) * 1.2 + (g : ℚ) / 12 + (a : ℚ) / 3 := by
    unfold rawScore
    norm_num
  refine ⟨assess_risk ⟨t, g, a⟩, assessEndpoint_ok t g a, ?_, ?_, ?_, ?_⟩
  · rw [assess_score_eq, hrs]
  · rw [assess_score_eq]
    exact round1_decimal _
  · exact (assess_score_bounds _).1
  · exact (assess_score_bounds _).2

/-- Witness for C1 at the concrete input (25, 0, 0). -/
theorem claim_c1_witness :
    (0 : ℤ) ≤ 0 ∧
      ∃ r, assessEndpoint 25 0 0 = Except.ok r ∧
        r.score = round1 (clampScore (max 0 ((25 : ℚ) - 25) * 1.2 +
          ((0 : ℤ) : ℚ) / 12 + ((0 : ℤ) : ℚ) / 3)) ∧
        (∃ n : ℤ, r.score = (n : ℚ) / 10) ∧
        0 ≤ r.score ∧ r.score ≤ 100 :=
  ⟨le_refl 0, claim_c1 25 0 0 (le_refl 0) (le_refl 0)⟩

/-- C2: the level is chosen by a first-match priority chain on the pre-round
score (`≥ 70` / `gas_ppm > 800` / `aqi > 150`, then `≥ 45` / `gas_ppm > 600` /
`aqi > 100`, else Normal), and the tips list is exactly the fixed ordered
sequence for the chosen level. -/
theorem claim_c2 (t : ℚ) (g a : ℤ) :
    ((assess_risk ⟨t, g, a⟩).level =
      if 70 ≤ rawScore t g a ∨ 800 < g ∨ 150 < a then "High risk"
      else if 45 ≤ rawScore t g a ∨ 600 < g ∨ 100 < a then "Elevated"
      else "Normal") ∧
    ((assess_risk ⟨t, g, a⟩).level = "High risk" →
      (assess_risk ⟨t, g, a⟩).tips =
        ["Evacuate non-essential personnel",
         "Engage ventilation and gas suppression systems",
         "Activate incident command protocol"]) ∧
    ((assess_risk ⟨t, g, a⟩).level = "Elevated" →
      (assess_risk ⟨t, g, a⟩).tips =
        ["Increase monitoring frequency",
         "Prepare PPE and standby team",
         "Verify sensor calibration"]) ∧
    ((assess_risk ⟨t, g, a⟩).level = "Normal" →
      (assess_risk ⟨t, g, a⟩).tips =
        ["Continue routine monitoring",
         "Maintain clear egress routes"]) := by
  rw [assess_level_eq, assess_tips_eq, levelTips_clamp_eq]
  dsimp only
  unfold levelTips
  split_ifs <;>
    refine ⟨rfl, ?_, ?_, ?_⟩ <;>
    intro h <;>
    first
      | rfl
      | exact absurd h (by decide)

/-- C5: evaluating the level thresholds on the clamped score yields the same
level as evaluating them on the unclamped pre-round score. -/
theorem claim_c5 (t : ℚ) (g a : ℤ) (_hg : 0 ≤ g) (_ha : 0 ≤ a) :
    (levelTips (clampScore (rawScore t g a)) g a).1 = (levelTips (rawScore t g a) g a).1 := by
  rw [levelTips_clamp_eq]

/-- Witness for C5 at the concrete input (25, 0, 0). -/
theorem claim_c5_witness :
    (0 : ℤ) ≤ 0 ∧
      (levelTips (clampScore (rawScore 25 0 0)) 0 0).1 = (levelTips (rawScore 25 0 0) 0 0).1 :=
  ⟨le_refl 0, claim_c5 25 0 0 (le_refl 0) (le_refl 0)⟩

/-- C7: the three specific assess outputs — (25,0,0) scores 0.0 at Normal with
two tips; (25,0,500) scores 100.0 (clamped) at High risk; (50,0,0) scores 30.0
at Normal. -/
theorem claim_c7 :
    (assess_risk ⟨25, 0, 0⟩).score = 0 ∧ (assess_risk ⟨25, 0, 0⟩).level = "Normal" ∧
      (assess_risk ⟨25, 0, 0⟩).tips.length = 2 ∧
      (assess_risk ⟨25, 0, 500⟩).score = 100 ∧
      (assess_risk ⟨25, 0, 500⟩).level = "High risk" ∧
      (assess_risk ⟨50, 0, 0⟩).score = 30 ∧ (assess_risk ⟨50, 0, 0⟩).level = "Normal" := by
  norm_num [assess_risk, rawScore, clampScore, round1, roundHalfEven, levelTips]

/-- C9: assess is deterministic — identical `(temperature_c, gas_ppm, aqi)`
arguments yield identical outputs; the result depends on nothing but the three
fields. -/
theorem claim_c9 (p q : InsightRequest) (h1 : p.temperature_c = q.temperature_c)
    (h2 : p.gas_ppm = q.gas_ppm) (h3 : p.aqi = q.aqi) : assess_risk p = assess_risk q := by
  cases p
  cases q
  cases h1
  cases h2
  cases h3
  rfl

/-- Witness for C9 at the concrete input (25, 0, 0). -/
theorem claim_c9_witness :
    (InsightRequest.mk 25 0 0).temperature_c = (InsightRequest.mk 25 0 0).temperature_c ∧
      assess_risk ⟨25, 0, 0⟩ = assess_risk ⟨25, 0, 0⟩ :=
  ⟨rfl, claim_c9 ⟨25, 0, 0⟩ ⟨25, 0, 0⟩ rfl rfl rfl⟩

/-- C10: assess is total over every `InsightRequest` the interface accepts,
including negative `gas_ppm`/`aqi`: it never errors and the returned score is
within [0, 100]. -/
theorem claim_c10 (t : ℚ) (g a : ℤ) :
    ∃ r, assessEndpoint t g a = Except.ok r ∧ 0 ≤ r.score ∧ r.score ≤ 100 :=
  ⟨assess_risk ⟨t, g, a⟩, assessEndpoint_ok t g a, (assess_score_bounds _).1,
    (assess_score_bounds _).2⟩

/-- C3 counterexample: a negative `gas_ppm` on the assess operation is NOT
rejected with a `ValidationError` — `InsightRequest` declares no constraints,
so the request succeeds. -/
theorem claim_c3_counterexample :
    assessEndpoint 0 (-1) 0 =
      Except.ok ⟨0, "Normal", ["Continue routine monitoring", "Maintain clear egress routes"]⟩ := by
  rw [assessEndpoint_ok]
  norm_num [assess_risk, rawScore, clampScore, round1, roundHalfEven, levelTips,
    InsightResponse.mk.injEq]

/-- C3 (amended): a negative `gas_ppm` or `aqi` is rejected with a
`ValidationError` before persistence on the ingest operation only; the assess
operation's `InsightRequest` does not constrain these fields and accepts any
input. -/
theorem claim_c3_amended (store : List Doc) (i : SensorEventInput) (newId : String)
    (createdAt : Option ℤ) (t : ℚ) (g a : ℤ) (h : i.gas_ppm < 0 ∨ i.aqi < 0) :
    (∃ m, ingest_sensor_event store i newId createdAt =
        Except.error (ApiError.validationError m)) ∧
    ∃ r, assessEndpoint t g a = Except.ok r := by
  constructor
  · unfold ingest_sensor_event SensorEvent.parse
    rcases h with h | h
    · rw [if_neg (by omega)]
      exact ⟨_, rfl⟩
    · by_cases hg : (0 : ℤ) ≤ i.gas_ppm
      · rw [if_pos hg, if_neg (by omega)]
        exact ⟨_, rfl⟩
      · rw [if_neg hg]
        exact ⟨_, rfl⟩
  · exact ⟨_, assessEndpoint_ok t g a⟩

/-- Witness for the amended C3 at a concrete negative-gas input. -/
theorem claim_c3_amended_witness :
    ((SensorEventInput.mk 0 20 (-1) 0 none none none).gas_ppm < 0 ∨
      (SensorEventInput.mk 0 20 (-1) 0 none none none).aqi < 0) ∧
    ((∃ m, ingest_sensor_event [] ⟨0, 20, -1, 0, none, none, none⟩ "id1" none =
        Except.error (ApiError.validationError m)) ∧
      ∃ r, assessEndpoint 0 (-1) 0 = Except.ok r) :=
  ⟨Or.inl (by decide),
    claim_c3_amended [] ⟨0, 20, -1, 0, none, none, none⟩ "id1" none 0 (-1) 0
      (Or.inl (by decide))⟩

/-- C4 counterexample: a single record whose stored timestamp string no
datetime parser accepts makes the whole recent-readings request fail with a
500, even though a well-formed record is also present. -/
theorem claim_c4_counterexample :
    get_recent_readings (fun _ => none) (fun _ => none) 0 [docGood, docBad] 20 =
      Except.error (ApiError.httpException 500 "timestamp: invalid datetime") := by
  have hsort : sortDocs 0 [docGood, docBad] = [docGood, docBad] := by
    unfold sortDocs
    rw [mergeSort_pair]
    simp [key_fn, docGood, docBad, tsLe]
  have hdocs : get_documents [docGood, docBad] 20 = [docGood, docBad] := rfl
  unfold get_recent_readings processedDocs
  rw [hdocs, hsort]
  simp [normalizeDoc, docGood, docBad, buildItems, SensorEvent.ofDoc,
    SensorEvent.ofParts, ApiError.detail]

/-- C4 (amended): a record whose stored timestamp string fails the ISO parse is
passed through with its original string value into the response-model
construction; the request succeeds (returning every fetched record) only when
the model layer can coerce every record, and a record the model layer cannot
coerce fails the entire request. The first hypothesis restricts to fetched
records whose sort keys are all datetimes: with heterogeneous keys Python's
`sorted()` itself raises `TypeError` and the request fails before any record
is converted. -/
theorem claim_c4_amended (parseIso parsePyd : String → Option ℤ) (now : ℤ)
    (store : List Doc) (limit : ℕ)
    (_hkeys : ∀ d ∈ get_documents store limit, (key_fn now d).isDt = true)
    (h : ∀ d ∈ processedDocs parseIso now store limit,
        (SensorEvent.ofDoc parsePyd d).isOk = true) :
    (∀ d : Doc, ∀ s : String, d.timestamp = some (TsVal.str s) → parseIso s = none →
        (normalizeDoc parseIso d).timestamp = some (TsVal.str s)) ∧
    ∃ items, get_recent_readings parseIso parsePyd now store limit = Except.ok items ∧
      items.length = (processedDocs parseIso now store limit).length := by
  constructor
  · exact fun d s h1 h2 => normalizeDoc_unparsed parseIso d s h1 h2
  · obtain ⟨items, hi, hl⟩ := buildItems_ok parsePyd _ h
    exact ⟨items, by simp [get_recent_readings, hi], hl⟩

/-- Witness for the amended C4 on a one-record store whose timestamp string the
ISO parse rejects but the model layer accepts. -/
theorem claim_c4_amended_witness :
    (∀ d ∈ get_documents [docBad] 20, (key_fn 0 d).isDt = true) ∧
    (∀ d ∈ processedDocs (fun _ : String => (none : Option ℤ)) 0 [docBad] 20,
        (SensorEvent.ofDoc (fun _ : String => (some 0 : Option ℤ)) d).isOk = true) ∧
    ((∀ d : Doc, ∀ s : String, d.timestamp = some (TsVal.str s) →
        (fun _ : String => (none : Option ℤ)) s = none →
        (normalizeDoc (fun _ : String => (none : Option ℤ)) d).timestamp =
          some (TsVal.str s)) ∧
      ∃ items, get_recent_readings (fun _ : String => (none : Option ℤ))
          (fun _ : String => (some 0 : Option ℤ)) 0 [docBad] 20 = Except.ok items ∧
        items.length =
          (processedDocs (fun _ : String => (none : Option ℤ)) 0 [docBad] 20).length) := by
  have hkeys : ∀ d ∈ get_documents [docBad] 20, (key_fn 0 d).isDt = true := by decide
  have h : ∀ d ∈ processedDocs (fun _ : String => (none : Option ℤ)) 0 [docBad] 20,
      (SensorEvent.ofDoc (fun _ : String => (some 0 : Option ℤ)) d).isOk = true := by
    simp [processedDocs, get_documents, sortDocs, normalizeDoc, docBad,
      SensorEvent.ofDoc, SensorEvent.ofParts, Except.isOk, Except.toBool]
  exact ⟨hkeys, h, claim_c4_amended (fun _ => none) (fun _ => some 0) 0 [docBad] 20 hkeys h⟩

/-- C6 counterexample: for a record with no store-assigned creation timestamp
and a present but empty-string domain `timestamp`, the sort key is the current
time, not the domain timestamp field — Python's `or` chain treats `""` as
falsy, so the claimed precedence (domain `timestamp` whenever `created_at` is
absent and `timestamp` is present) is false of the program. -/
theorem claim_c6_counterexample :
    docFalsy.created_at = none ∧ docFalsy.timestamp = some (TsVal.str "") ∧
      key_fn 0 docFalsy = TsVal.dt 0 ∧ key_fn 0 docFalsy ≠ TsVal.str "" := by
  decide

/-- C6 (amended): the recent-readings operation sorts the fetched records in
memory, descending, by this key precedence: the store-assigned `created_at` if
present, else the domain `timestamp` field if present and truthy (a present but
empty-string timestamp is falsy in Python's `or` chain and falls through), else
the current time evaluated at sort time; the result is a permutation of the
fetched records in most-recent-first order, and an unspecified limit defaults
to 20. The hypothesis restricts to fetched records whose sort keys are all
datetimes, the only case where Python's comparison is defined. -/
theorem claim_c6_amended (parseIso parsePyd : String → Option ℤ) (now : ℤ)
    (store : List Doc) (limit : ℕ)
    (_h : ∀ d ∈ get_documents store limit, (key_fn now d).isDt = true) :
    get_recent_readings_default parseIso parsePyd now store =
      get_recent_readings parseIso parsePyd now store 20 ∧
    List.Perm (sortDocs now (get_documents store limit)) (get_documents store limit) ∧
    List.Pairwise (fun x y => tsLe (key_fn now y) (key_fn now x) = true)
      (sortDocs now (get_documents store limit)) ∧
    (∀ d : Doc, ∀ c : ℤ, d.created_at = some c → key_fn now d = TsVal.dt c) ∧
    (∀ d : Doc, ∀ v : TsVal, d.created_at = none → d.timestamp = some v →
      v.truthy = true → key_fn now d = v) ∧
    (∀ d : Doc, ∀ v : TsVal, d.created_at = none → d.timestamp = some v →
      v.truthy = false → key_fn now d = TsVal.dt now) ∧
    (∀ d : Doc, d.created_at = none → d.timestamp = none → key_fn now d = TsVal.dt now) :=
  ⟨rfl, sortDocs_perm _ _, sortDocs_pairwise _ _,
    fun d c hc => key_fn_created now d c hc,
    fun d v h1 h2 h3 => key_fn_timestamp now d v h1 h2 h3,
    fun d v h1 h2 h3 => key_fn_falsy now d v h1 h2 h3,
    fun d h1 h2 => key_fn_now now d h1 h2⟩

/-- Witness for the amended C6 on a concrete one-record store with a datetime
key. -/
theorem claim_c6_amended_witness :
    (∀ d ∈ get_documents [docGood] 20, (key_fn 0 d).isDt = true) ∧
    (get_recent_readings_default (fun _ : String => (none : Option ℤ))
        (fun _ : String => (none : Option ℤ)) 0 [docGood] =
      get_recent_readings (fun _ : String => (none : Option ℤ))
        (fun _ : String => (none : Option ℤ)) 0 [docGood] 20 ∧
      List.Perm (sortDocs 0 (get_documents [docGood] 20)) (get_documents [docGood] 20) ∧
      List.Pairwise (fun x y => tsLe (key_fn 0 y) (key_fn 0 x) = true)
        (sortDocs 0 (get_documents [docGood] 20)) ∧
      (∀ d : Doc, ∀ c : ℤ, d.created_at = some c → key_fn 0 d = TsVal.dt c) ∧
      (∀ d : Doc, ∀ v : TsVal, d.created_at = none → d.timestamp = some v →
        v.truthy = true → key_fn 0 d = v) ∧
      (∀ d : Doc, ∀ v : TsVal, d.created_at = none → d.timestamp = some v →
        v.truthy = false → key_fn 0 d = TsVal.dt 0) ∧
      (∀ d : Doc, d.created_at = none → d.timestamp = none → key_fn 0 d = TsVal.dt 0)) :=
  ⟨by decide, claim_c6_amended (fun _ => none) (fun _ => none) 0 [docGood] 20 (by decide)⟩

/-- C8: every document reaching the response-model construction of the
recent-readings operation has the store-only identifier removed (and the
returned `SensorEvent` shape carries no identifier field at all). -/
theorem claim_c8 (parseIso : String → Option ℤ) (now : ℤ) (store : List Doc) (limit : ℕ) :
    (processedDocs parseIso now store limit).all (fun d => d.oid.isNone) = true := by
  rw [List.all_eq_true]
  intro d hd
  obtain ⟨d', _, rfl⟩ := List.mem_map.mp (by simpa [processedDocs] using hd)
  simp [normalizeDoc_oid]

end TwinEdge
